import Mathlib

/-!
Verification of the `secgpt` schema base module (`src/secgpt/schema/base.py`).

The module is a thin data container for SEC filings: a `FilingType`
enumeration, a `FilingInfo` metadata record, and a `BaseFiling` class whose
accessors guard absent data with assertions.  We embed it shallowly:

* Python `dict` section data becomes an association list
  `List (String × String)` with `List.lookup` as dictionary access;
* the class attributes of `BaseFiling` become `Option`-valued fields of a
  structure, `none` meaning the Python default `None`;
* a Python `assert cond, msg` that fails becomes an
  `Except.error (PyError.assertionError msg)` result, keeping the exact
  message strings of the source.
-/

/-- The `FilingType` enumeration of `base.py`, lines 6-9. -/
inductive FilingType where
  | TenK
  | TenQ
  | EightK
deriving DecidableEq

/-- The string value each `FilingType` member carries in the source
(`str`-valued enum): its wire representation. -/
def FilingType.value : FilingType → String
  | .TenK => "10-K"
  | .TenQ => "10-Q"
  | .EightK => "8-K"

/-- The `FilingInfo` record of `base.py`, lines 12-20: eight plain string
fields of filing provenance. -/
structure FilingInfo where
  accession_no : String
  cik : String
  company_name : String
  ticker : String
  description : String
  form_type : String
  filing_url : String
  filing_date : String
deriving DecidableEq

/-- Python exceptions the embedded code can surface.  A failed `assert`
raises `AssertionError` carrying the message; `keyError` is listed so that
the exception class is not degenerate (unchecked dict access would raise
`KeyError`), though the source never reaches it. -/
inductive PyError where
  | assertionError (msg : String)
  | keyError (key : String)
deriving DecidableEq

/-- The Python exception class of an error value. -/
def PyError.className : PyError → String
  | .assertionError _ => "AssertionError"
  | .keyError _ => "KeyError"

/-- Message of the assertion guarding `self.data` in `get_data_by_section`
and `get_data` (`base.py` lines 59-60 and 68-69). -/
def noDataMsg : String := "No filing data, use from_dict() to fill the data first"

/-- Message of the assertion guarding key membership in
`get_data_by_section` (`base.py` lines 61-62). -/
def badSectionMsg : String := "Not supported section item"

/-- Message of the assertion guarding `self.filing_info` in
`get_filing_info` (`base.py` lines 75-76). -/
def noInfoMsg : String := "Not set filing info, please set_filing_info() first"

/-- The error surfaced when a section accessor runs before ingestion. -/
def UnpopulatedDataError : PyError := .assertionError noDataMsg

/-- The error surfaced when the requested section key is absent. -/
def UnknownSectionKeyError : PyError := .assertionError badSectionMsg

/-- The error surfaced when the metadata accessor runs before attachment. -/
def UnpopulatedMetadataError : PyError := .assertionError noInfoMsg

/-- The `BaseFiling` state: its three class attributes, all defaulting to
`None` (`base.py` lines 34, 35, 42). -/
structure BaseFiling where
  data : Option (List (String × String)) := none
  filing_info : Option FilingInfo := none
  extra_info : Option (List (String × String)) := none
deriving DecidableEq

/-- A freshly constructed `BaseFiling`: every attribute still `None`. -/
def emptyFiling : BaseFiling := {}

/-- `set_filing_info` (`base.py` lines 48-50): `self.filing_info = info`. -/
def BaseFiling.set_filing_info (self : BaseFiling) (info : FilingInfo) : BaseFiling :=
  { self with filing_info := some info }

/-- `from_dict` (`base.py` lines 52-54): `self.data = data`. -/
def BaseFiling.from_dict (self : BaseFiling) (d : List (String × String)) : BaseFiling :=
  { self with data := some d }

/-- `get_data_by_section` (`base.py` lines 56-64): assert `self.data` is
set, assert the key is present, return `self.data[section_key]`. -/
def BaseFiling.get_data_by_section (self : BaseFiling) (section_key : String) :
    Except PyError String :=
  match self.data with
  | none => .error UnpopulatedDataError
  | some d =>
    match d.lookup section_key with
    | some v => .ok v
    | none => .error UnknownSectionKeyError

/-- `get_data` (`base.py` lines 66-71): assert `self.data` is set, return
the whole mapping. -/
def BaseFiling.get_data (self : BaseFiling) : Except PyError (List (String × String)) :=
  match self.data with
  | none => .error UnpopulatedDataError
  | some d => .ok d

/-- `get_filing_info` (`base.py` lines 73-78): assert `self.filing_info` is
set, return it. -/
def BaseFiling.get_filing_info (self : BaseFiling) : Except PyError FilingInfo :=
  match self.filing_info with
  | none => .error UnpopulatedMetadataError
  | some i => .ok i

/-- Modelled from the spec: the source declares `get_type` only as an
abstract classmethod of `BaseFiling` (`base.py` lines 43-46); the concrete
per-category subclasses that implement it are not in the repository.  Per
the spec each concrete variant carries a constant `FilingCategory` tag and
`get_type` returns that tag, all other behavior being inherited unchanged
from `BaseFiling`. -/
structure ConcreteFiling where
  ftype : FilingType
  base : BaseFiling
deriving DecidableEq

/-- Modelled from the spec: `get_type` of a concrete variant returns the
constant tag of the variant, independent of instance state. -/
def ConcreteFiling.get_type (self : ConcreteFiling) : FilingType :=
  self.ftype

/-- `set_filing_info` inherited by a concrete variant: acts on the
`BaseFiling` state only. -/
def ConcreteFiling.set_filing_info (self : ConcreteFiling) (info : FilingInfo) :
    ConcreteFiling :=
  { self with base := self.base.set_filing_info info }

/-- `from_dict` inherited by a concrete variant: acts on the `BaseFiling`
state only. -/
def ConcreteFiling.from_dict (self : ConcreteFiling) (d : List (String × String)) :
    ConcreteFiling :=
  { self with base := self.base.from_dict d }

/-- C1: after `from_dict m`, for every key present in `m`,
`get_data_by_section` returns exactly the stored value, unmodified. -/
theorem from_dict_get_data_by_section_exact (f : BaseFiling)
    (m : List (String × String)) (k v : String) (h : m.lookup k = some v) :
    (f.from_dict m).get_data_by_section k = .ok v := by
  simp [BaseFiling.from_dict, BaseFiling.get_data_by_section, h]

/-- Witness for C1 at a concrete mapping and key. -/
theorem from_dict_get_data_by_section_exact_witness :
    ([("Item 1", "alpha"), ("Item 1A", "beta")] : List (String × String)).lookup "Item 1A"
        = some "beta" ∧
      (emptyFiling.from_dict [("Item 1", "alpha"), ("Item 1A", "beta")]).get_data_by_section
        "Item 1A" = .ok "beta" :=
  ⟨by decide,
    from_dict_get_data_by_section_exact emptyFiling
      [("Item 1", "alpha"), ("Item 1A", "beta")] "Item 1A" "beta" (by decide)⟩

/-- C2: the wire representations of the three `FilingType` members are the
exact literals "10-K", "10-Q" and "8-K". -/
theorem filingType_wire_strings :
    FilingType.TenK.value = "10-K" ∧ FilingType.TenQ.value = "10-Q" ∧
      FilingType.EightK.value = "8-K" :=
  ⟨rfl, rfl, rfl⟩

/-- C3: on a filing whose section data was never ingested (`data` still
`None`), `get_data_by_section` at any key and `get_data` both fail with
`UnpopulatedDataError`. -/
theorem unpopulated_data_accessors_fail (f : BaseFiling) (h : f.data = none)
    (k : String) :
    f.get_data_by_section k = .error UnpopulatedDataError ∧
      f.get_data = .error UnpopulatedDataError := by
  constructor
  · simp [BaseFiling.get_data_by_section, h]
  · simp [BaseFiling.get_data, h]

/-- Witness for C3 at the freshly constructed filing. -/
theorem unpopulated_data_accessors_fail_witness :
    emptyFiling.data = none ∧
      (emptyFiling.get_data_by_section "Item 1" = .error UnpopulatedDataError ∧
        emptyFiling.get_data = .error UnpopulatedDataError) :=
  ⟨rfl, unpopulated_data_accessors_fail emptyFiling rfl "Item 1"⟩

/-- C4: after `from_dict m`, requesting a key absent from `m` fails with
`UnknownSectionKeyError`. -/
theorem unknown_section_key_fails (f : BaseFiling) (m : List (String × String))
    (k : String) (h : m.lookup k = none) :
    (f.from_dict m).get_data_by_section k = .error UnknownSectionKeyError := by
  simp [BaseFiling.from_dict, BaseFiling.get_data_by_section, h]

/-- Witness for C4 at a concrete mapping and absent key. -/
theorem unknown_section_key_fails_witness :
    ([("Item 1", "alpha")] : List (String × String)).lookup "nonexistent-key" = none ∧
      (emptyFiling.from_dict [("Item 1", "alpha")]).get_data_by_section "nonexistent-key"
        = .error UnknownSectionKeyError :=
  ⟨by decide,
    unknown_section_key_fails emptyFiling [("Item 1", "alpha")] "nonexistent-key" (by decide)⟩

/-- C5: on a filing whose metadata was never attached (`filing_info` still
`None`), `get_filing_info` fails with `UnpopulatedMetadataError`. -/
theorem unpopulated_metadata_accessor_fails (f : BaseFiling)
    (h : f.filing_info = none) :
    f.get_filing_info = .error UnpopulatedMetadataError := by
  simp [BaseFiling.get_filing_info, h]

/-- Witness for C5 at the freshly constructed filing. -/
theorem unpopulated_metadata_accessor_fails_witness :
    emptyFiling.filing_info = none ∧
      emptyFiling.get_filing_info = .error UnpopulatedMetadataError :=
  ⟨rfl, unpopulated_metadata_accessor_fails emptyFiling rfl⟩

/-- C6: after `set_filing_info info` — on any prior state, in particular
one already carrying earlier metadata — `get_filing_info` returns exactly
`info`; a second write overrides the first (last write wins). -/
theorem set_filing_info_last_write_wins (f : BaseFiling) (i j : FilingInfo) :
    (f.set_filing_info i).get_filing_info = .ok i ∧
      ((f.set_filing_info i).set_filing_info j).get_filing_info = .ok j :=
  ⟨rfl, rfl⟩

/-- C7: `from_dict` replaces section data wholesale: after two ingestions,
`get_data` returns exactly the second mapping, with no merge. -/
theorem from_dict_replaces_wholesale (f : BaseFiling)
    (m1 m2 : List (String × String)) :
    ((f.from_dict m1).from_dict m2).get_data = .ok m2 :=
  rfl

/-- C8: `get_type` of a concrete variant always succeeds, returns the
constant tag of the variant — one of the three enumeration members — and is
unchanged by `set_filing_info` and `from_dict`. -/
theorem get_type_constant_per_variant (c : ConcreteFiling) (info : FilingInfo)
    (m : List (String × String)) :
    c.get_type = c.ftype ∧
      (c.get_type = .TenK ∨ c.get_type = .TenQ ∨ c.get_type = .EightK) ∧
      (c.set_filing_info info).get_type = c.get_type ∧
      (c.from_dict m).get_type = c.get_type := by
  refine ⟨rfl, ?_, rfl, rfl⟩
  cases h : c.ftype
  · exact Or.inl h
  · exact Or.inr (Or.inl h)
  · exact Or.inr (Or.inr h)

/-- C9: `set_filing_info` changes only the `filing_info` field and
`from_dict` changes only the `data` field; `extra_info` is untouched by
both. -/
theorem mutators_frame (f : BaseFiling) (info : FilingInfo)
    (m : List (String × String)) :
    ((f.set_filing_info info).data = f.data ∧
        (f.set_filing_info info).extra_info = f.extra_info) ∧
      ((f.from_dict m).filing_info = f.filing_info ∧
        (f.from_dict m).extra_info = f.extra_info) :=
  ⟨⟨rfl, rfl⟩, ⟨rfl, rfl⟩⟩

/-- C10: the three precondition failures are all raised with the same
exception class (`AssertionError`), and the error values differ only in
their message strings. -/
theorem precondition_failures_same_class :
    emptyFiling.get_data_by_section "Item 1" = .error UnpopulatedDataError ∧
      emptyFiling.get_filing_info = .error UnpopulatedMetadataError ∧
      (emptyFiling.from_dict []).get_data_by_section "Item 1"
        = .error UnknownSectionKeyError ∧
      UnpopulatedDataError.className = "AssertionError" ∧
      UnpopulatedMetadataError.className = "AssertionError" ∧
      UnknownSectionKeyError.className = "AssertionError" ∧
      UnpopulatedDataError ≠ UnpopulatedMetadataError ∧
      UnpopulatedDataError ≠ UnknownSectionKeyError ∧
      UnpopulatedMetadataError ≠ UnknownSectionKeyError := by
  refine ⟨rfl, rfl, rfl, rfl, rfl, rfl, ?_, ?_, ?_⟩ <;> decide
